import Mathlib

/-!
# SSO authentication service: error mapping between the sqlite store and the auth service

A shallow embedding of `internal/storage/storage.go`, `internal/storage/sqlite/sqlite.go`,
`internal/services/auth/auth.go` and the wiring of `internal/app/app.go`.

Go errors are modelled as chains: a leaf (a package-level `errors.New` value, a
`sqlite3.Error` struct, or any other leaf) under a stack of `fmt.Errorf("...%w", err)`
wrappers.  A Go `error` that may be nil is an `Option GoError`.  A Go function that
returns `(v, err)` returns a pair here, so that a collaborator may hand back both a
value and an error exactly as a Go implementation could.
-/

set_option autoImplicit false

namespace SSO

/-! ## Errors -/

/-- Package-level error values created with `errors.New`.  Go compares them by identity,
so two of them are equal only when they are the same variable, whatever their text. -/
inductive Sentinel
  | storageErrorUserExists
  | storageErrorUserNotFound
  | storageErrorAppNotFound
  | authErrInvalidCredentials
  | authErrInvalidAppID
  | authErrUserExists
  | sqlErrNoRows
  | bcryptErrMismatchedHashAndPassword
  | bcryptErrHashTooShort
deriving DecidableEq, Repr

/-- The text given to `errors.New` for each package-level error value. -/
def Sentinel.text : Sentinel → String
  | .storageErrorUserExists => "user already exists"
  | .storageErrorUserNotFound => "user not found"
  | .storageErrorAppNotFound => "app not found"
  | .authErrInvalidCredentials => "invalid credentials"
  | .authErrInvalidAppID => "invalid app ID"
  | .authErrUserExists => "user already exists"
  | .sqlErrNoRows => "sql: no rows in result set"
  | .bcryptErrMismatchedHashAndPassword =>
      "crypto/bcrypt: hashedPassword is not the hash of the given password"
  | .bcryptErrHashTooShort =>
      "crypto/bcrypt: hashedSecret too short to be a bcrypted password"

/-- A non-nil Go `error`.  `wrap msg inner` is `fmt.Errorf(msg + "%w", inner)`: its
`Unwrap` is `inner`. -/
inductive GoError
  | sentinel (s : Sentinel)
  | sqlite3Error (code : Nat) (extendedCode : Nat)
  | other (msg : String)
  | wrap (msg : String) (inner : GoError)
deriving DecidableEq, Repr

/-- The method `Error()`: the message of the whole chain. -/
def GoError.Error : GoError → String
  | .sentinel s => s.text
  | .sqlite3Error code ext => "sqlite3 error " ++ toString code ++ "/" ++ toString ext
  | .other msg => msg
  | .wrap msg inner => msg ++ inner.Error

/-- `fmt.Errorf` with a format that ends in `%w`; `msg` is the formatted text before
the wrapped error. -/
def fmt.Errorf (msg : String) (err : GoError) : GoError :=
  .wrap msg err

/-- `errors.Is(err, target)` for a package-level target: walk the `Unwrap` chain and
compare each link with the target by identity. -/
def errors.Is : GoError → Sentinel → Bool
  | .sentinel s, target => s == target
  | .sqlite3Error _ _, _ => false
  | .other _, _ => false
  | .wrap _ inner, target => errors.Is inner target

/-- `errors.As(err, &sqliteErr)` with `sqliteErr` of type `sqlite3.Error`: the first
link of the chain that is a `sqlite3.Error`, as `(Code, ExtendedCode)`. -/
def errors.As : GoError → Option (Nat × Nat)
  | .sentinel _ => none
  | .sqlite3Error code ext => some (code, ext)
  | .other _ => none
  | .wrap _ inner => errors.As inner

/-- True for the error values declared by this repository (packages `storage` and
`auth`). -/
def Sentinel.ofRepository : Sentinel → Bool
  | .storageErrorUserExists => true
  | .storageErrorUserNotFound => true
  | .storageErrorAppNotFound => true
  | .authErrInvalidCredentials => true
  | .authErrInvalidAppID => true
  | .authErrUserExists => true
  | .sqlErrNoRows => false
  | .bcryptErrMismatchedHashAndPassword => false
  | .bcryptErrHashTooShort => false

/-- True when no link of the chain is an error value of this repository: the errors
that `database/sql` and the sqlite3 driver can produce, since neither imports the
repository. -/
def GoError.library : GoError → Bool
  | .sentinel s => !s.ofRepository
  | .sqlite3Error _ _ => true
  | .other _ => true
  | .wrap _ inner => inner.library

/-- An error produced by the database engine. -/
abbrev EngineError := { e : GoError // e.library = true }

/-! ### `internal/storage/storage.go` -/

def storage.ErrorUserExists : Sentinel := .storageErrorUserExists
def storage.ErrorUserNotFound : Sentinel := .storageErrorUserNotFound
def storage.ErrorAppNotFound : Sentinel := .storageErrorAppNotFound

/-! ### error values of `internal/services/auth/auth.go` -/

def auth.ErrInvalidCredentials : Sentinel := .authErrInvalidCredentials
def auth.ErrInvalidAppID : Sentinel := .authErrInvalidAppID
def auth.ErrUserExists : Sentinel := .authErrUserExists

/-! ### library error values -/

def sql.ErrNoRows : Sentinel := .sqlErrNoRows
def bcrypt.ErrMismatchedHashAndPassword : Sentinel := .bcryptErrMismatchedHashAndPassword
def bcrypt.ErrHashTooShort : Sentinel := .bcryptErrHashTooShort

/-- The constant `sqlite3.ErrConstraintUnique` of the driver:
`ErrConstraint | 8<<8` with `ErrConstraint = 19`. -/
def sqlite3.ErrConstraintUnique : Nat := 2067

/-- The constant `bcrypt.DefaultCost`. -/
def bcrypt.DefaultCost : Nat := 10

/-! ## Data model -/

/-- A Go `[]byte`. -/
abbrev Bytes := List Nat

/-- Modelled from the spec: the type `models.User` (package `internal/domain/models`
is not among the sources); the fields are the ones `Storage.User` scans into. -/
structure User where
  ID : Int
  Email : String
  PassHash : Bytes
deriving DecidableEq, Repr

/-- Modelled from the spec: the type `models.App` (package `internal/domain/models`
is not among the sources); the fields are the ones `Storage.App` scans into. -/
structure App where
  ID : Int
  Name : String
  Secret : String
deriving DecidableEq, Repr

/-- The Go zero value `models.User{}`. -/
def User.zero : User := ⟨0, "", []⟩

/-- The Go zero value `models.App{}`. -/
def App.zero : App := ⟨0, "", ""⟩

/-! ## The auth service (`internal/services/auth/auth.go`) -/

/-- Interface `UserSaver`. -/
structure UserSaver where
  SaveUser : String → Bytes → Int × Option GoError

/-- Interface `UserProvider`. -/
structure UserProvider where
  User : String → User × Option GoError
  IsAdmin : Int → Bool × Option GoError

/-- Interface `AppProvider`. -/
structure AppProvider where
  App : Int → App × Option GoError

/-- The library functions the service calls: `bcrypt.CompareHashAndPassword`,
`bcrypt.GenerateFromPassword` (which draws a random salt) and `jwt.NewToken` of
`internal/lib/jwt`, which is not among the sources.  The conversion `[]byte(password)`
is part of the two bcrypt entries. -/
structure Lib where
  CompareHashAndPassword : Bytes → String → Option GoError
  GenerateFromPassword : String → Nat → Bytes × Option GoError
  NewToken : User → App → Int → String × Option GoError

/-- Struct `Auth` without its logger; `tokenTTL` is a `time.Duration`. -/
structure Auth where
  UserSaver : UserSaver
  UserProvider : UserProvider
  AppProvider : AppProvider
  tokenTTL : Int

/-- Levels of `log/slog` used by the service. -/
inductive Level
  | info
  | warn
  | error
deriving DecidableEq, Repr

/-- What a run of a service operation does besides returning: the log records it
writes and the collaborator calls it makes, in order. -/
inductive Event
  | log (level : Level) (msg : String)
  | callUser (email : String)
  | callIsAdmin (userID : Int)
  | callApp (appID : Int)
  | callSaveUser (email : String) (passHash : Bytes)
deriving DecidableEq, Repr

/-- The outcome of a run: the Go return values `(val, err)` and the events of the run. -/
structure Run (α : Type) where
  val : α
  err : Option GoError
  trace : List Event

/-- Function `auth.New`. -/
def auth.New (userSaver : UserSaver) (userProvider : UserProvider)
    (appProvider : AppProvider) (tokenTTL : Int) : Auth :=
  { UserSaver := userSaver, UserProvider := userProvider,
    AppProvider := appProvider, tokenTTL := tokenTTL }

/-- Method `(*Auth).Login`. -/
def Auth.Login (a : Auth) (lib : Lib) (email password : String) (appID : Int) :
    Run String :=
  let t0 := [Event.log .info "Logging in user", Event.callUser email]
  match a.UserProvider.User email with
  | (_, some err) =>
    if errors.Is err storage.ErrorUserNotFound then
      ⟨"", some (fmt.Errorf "auth.Login: " (.sentinel auth.ErrInvalidCredentials)),
        t0 ++ [Event.log .warn "user not found"]⟩
    else
      ⟨"", some (fmt.Errorf "auth.Login: " err),
        t0 ++ [Event.log .error "failed to get user"]⟩
  | (user, none) =>
    match lib.CompareHashAndPassword user.PassHash password with
    | some _ =>
      ⟨"", some (fmt.Errorf "auth.Login: " (.sentinel auth.ErrInvalidCredentials)),
        t0 ++ [Event.log .info "invalid credentials"]⟩
    | none =>
      let t1 := t0 ++ [Event.callApp appID]
      match a.AppProvider.App appID with
      | (_, some err) => ⟨"", some (fmt.Errorf "auth.Login: " err), t1⟩
      | (app, none) =>
        let t2 := t1 ++ [Event.log .info "User logged in successfully"]
        match lib.NewToken user app a.tokenTTL with
        | (_, some err) =>
          ⟨"", some (fmt.Errorf "auth.Login: " err),
            t2 ++ [Event.log .error "failed to create token"]⟩
        | (token, none) => ⟨token, none, t2⟩

/-- Method `(*Auth).RegisterNewUser`. -/
def Auth.RegisterNewUser (a : Auth) (lib : Lib) (email password : String) : Run Int :=
  let t0 := [Event.log .info "Registering new user"]
  match lib.GenerateFromPassword password bcrypt.DefaultCost with
  | (_, some err) =>
    ⟨0, some (fmt.Errorf "auth.RegisterNewUser: " err),
      t0 ++ [Event.log .error "failed to generate password hash"]⟩
  | (passHash, none) =>
    let t1 := t0 ++ [Event.callSaveUser email passHash]
    match a.UserSaver.SaveUser email passHash with
    | (_, some err) =>
      if errors.Is err storage.ErrorUserExists then
        ⟨0, some (fmt.Errorf "auth.RegisterNewUser: " (.sentinel auth.ErrUserExists)),
          t1 ++ [Event.log .warn "user already exists"]⟩
      else
        ⟨0, some (fmt.Errorf "auth.RegisterNewUser: " err),
          t1 ++ [Event.log .error "failed to save user"]⟩
    | (id, none) => ⟨id, none, t1 ++ [Event.log .info "User registered successfully"]⟩

/-- Method `(*Auth).IsAdmin`. -/
def Auth.IsAdmin (a : Auth) (userID : Int) : Run Bool :=
  let t0 := [Event.log .info "Checking if user is admin", Event.callIsAdmin userID]
  match a.UserProvider.IsAdmin userID with
  | (_, some err) =>
    if errors.Is err storage.ErrorAppNotFound then
      ⟨false, some (fmt.Errorf "auth.IsAdmin: " (.sentinel auth.ErrInvalidAppID)),
        t0 ++ [Event.log .warn "user not found"]⟩
    else
      ⟨false, some (fmt.Errorf "auth.IsAdmin: " err),
        t0 ++ [Event.log .error "failed to check if user is admin"]⟩
  | (isAdmin, none) => ⟨isAdmin, none, t0 ++ [Event.log .info "User admin status checked"]⟩

/-! ## The sqlite store (`internal/storage/sqlite/sqlite.go`) -/

/-- A `sql.Result`: the outcome of its method `LastInsertId`. -/
structure sql.Result where
  LastInsertId : Int × Option EngineError

/-- An open `*sql.DB` handle, seen through the calls the store makes on it.  Each entry
is the outcome of that call on the handle (`database/sql` and the sqlite3 driver are
libraries): preparing a query text, executing the prepared insert with its two
arguments, and querying one row with one argument and scanning it into the
destinations of that query. -/
structure sql.DB where
  PrepareContext : String → Option EngineError
  Prepare : String → Option EngineError
  ExecContext : String → String → Bytes → Except EngineError sql.Result
  ScanUser : String → String → Except EngineError User
  ScanApp : String → Int → Except EngineError App
  ScanIsAdmin : String → Int → Except EngineError Bool

/-- Struct `Storage`. -/
structure Storage where
  db : sql.DB

/-- Function `sqlite.New`, given the handle that `sql.Open` returned. -/
def sqlite.New (db : sql.DB) : Storage :=
  { db := db }

/-- Method `(*Storage).SaveUser`. -/
def Storage.SaveUser (s : Storage) (email : String) (passHash : Bytes) :
    Int × Option GoError :=
  let q := "INSERT INTO users (email, password_hash) VALUES (?, ?)"
  match s.db.PrepareContext q with
  | some err => (0, some (fmt.Errorf "storage.sqlite.SaveUser: prepare statement: " err.val))
  | none =>
    match s.db.ExecContext q email passHash with
    | .error err =>
      if (match errors.As err.val with
          | some (_, extendedCode) => extendedCode == sqlite3.ErrConstraintUnique
          | none => false) then
        (0, some (fmt.Errorf "storage.sqlite.SaveUser: user already exists: "
          (.sentinel storage.ErrorUserExists)))
      else
        (0, some (fmt.Errorf "storage.sqlite.SaveUser: execute statement: " err.val))
    | .ok res =>
      match res.LastInsertId with
      | (_, some err) =>
        (0, some (fmt.Errorf "storage.sqlite.SaveUser: get last insert id: " err.val))
      | (id, none) => (id, none)

/-- Method `(*Storage).User`. -/
def Storage.User (s : Storage) (email : String) : User × Option GoError :=
  let q := "SELECT id, email, password_hash FROM users WHERE email = ?"
  match s.db.PrepareContext q with
  | some err =>
    (User.zero, some (fmt.Errorf "storage.sqlite.User: prepare statement: " err.val))
  | none =>
    match s.db.ScanUser q email with
    | .error err =>
      if errors.Is err.val sql.ErrNoRows then
        (User.zero, some (fmt.Errorf "storage.sqlite.User: user not found: "
          (.sentinel storage.ErrorUserNotFound)))
      else
        (User.zero, some (fmt.Errorf "storage.sqlite.User: scan row: " err.val))
    | .ok user => (user, none)

/-- Method `(*Storage).App`. -/
def Storage.App (s : Storage) (id : Int) : App × Option GoError :=
  let q := "SELECT id, name, secret FROM apps WHERE id = ?"
  match s.db.Prepare q with
  | some err => (App.zero, some (fmt.Errorf "storage.sqlite.App: " err.val))
  | none =>
    match s.db.ScanApp q id with
    | .error err =>
      if errors.Is err.val sql.ErrNoRows then
        (App.zero, some (fmt.Errorf "storage.sqlite.App: "
          (.sentinel storage.ErrorAppNotFound)))
      else
        (App.zero, some (fmt.Errorf "storage.sqlite.App: " err.val))
    | .ok app => (app, none)

/-- Method `(*Storage).IsAdmin`. -/
def Storage.IsAdmin (s : Storage) (userID : Int) : Bool × Option GoError :=
  let q := "SELECT is_admin FROM users WHERE id = ?"
  match s.db.PrepareContext q with
  | some err =>
    (false, some (fmt.Errorf "storage.sqlite.IsAdmin: prepare statement: " err.val))
  | none =>
    match s.db.ScanIsAdmin q userID with
    | .error err =>
      if errors.Is err.val sql.ErrNoRows then
        (false, some (fmt.Errorf "storage.sqlite.IsAdmin: user not found: "
          (.sentinel storage.ErrorAppNotFound)))
      else
        (false, some (fmt.Errorf "storage.sqlite.IsAdmin: scan row: " err.val))
    | .ok isAdmin => (isAdmin, none)

/-- The store as a `UserSaver`. -/
def Storage.asUserSaver (s : Storage) : UserSaver :=
  { SaveUser := s.SaveUser }

/-- The store as a `UserProvider`. -/
def Storage.asUserProvider (s : Storage) : UserProvider :=
  { User := s.User, IsAdmin := s.IsAdmin }

/-- The store as an `AppProvider`. -/
def Storage.asAppProvider (s : Storage) : AppProvider :=
  { App := s.App }

/-- Function `app.New` of `internal/app/app.go`, up to the construction of the auth
service: one store serves as all three collaborators. -/
def app.New (db : sql.DB) (tokenTTL : Int) : Auth :=
  let storage := sqlite.New db
  auth.New storage.asUserSaver storage.asUserProvider storage.asAppProvider tokenTTL

/-! ## A healthy database over explicit tables -/

/-- Modelled from the spec: a row of table `users` (the migrations are not among the
sources); the columns are the ones the store's queries name. -/
structure UserRow where
  id : Int
  email : String
  password_hash : Bytes
  is_admin : Bool
deriving DecidableEq, Repr

/-- Modelled from the spec: a row of table `apps` (the migrations are not among the
sources); the columns are the ones the store's queries name. -/
structure AppRow where
  id : Int
  name : String
  secret : String
deriving DecidableEq, Repr

/-- The engine error `sql.ErrNoRows`. -/
def engineNoRows : EngineError := ⟨.sentinel sql.ErrNoRows, rfl⟩

/-- The engine error of a violated unique constraint. -/
def engineUniqueViolation : EngineError :=
  ⟨.sqlite3Error 19 sqlite3.ErrConstraintUnique, rfl⟩

/-- Modelled from the spec: a database whose engine never fails on its own, holding
the given rows.  Every prepare succeeds; a one-row query answers with the first row
whose key equals the argument and with `sql.ErrNoRows` when there is none; the insert
is refused with the unique-constraint error when the email is taken and otherwise
reports the next row id.  The handle is a snapshot: the rows after an insert are not
tracked. -/
def tableDB (users : List UserRow) (apps : List AppRow) : sql.DB :=
  { PrepareContext := fun _ => none
    Prepare := fun _ => none
    ExecContext := fun _ email _ =>
      if users.any (fun r => r.email == email) then .error engineUniqueViolation
      else .ok { LastInsertId := (users.foldl (fun m r => max m r.id) 0 + 1, none) }
    ScanUser := fun _ email =>
      match users.find? (fun r => r.email == email) with
      | some r => .ok { ID := r.id, Email := r.email, PassHash := r.password_hash }
      | none => .error engineNoRows
    ScanApp := fun _ id =>
      match apps.find? (fun r => r.id == id) with
      | some r => .ok { ID := r.id, Name := r.name, Secret := r.secret }
      | none => .error engineNoRows
    ScanIsAdmin := fun _ userID =>
      match users.find? (fun r => r.id == userID) with
      | some r => .ok r.is_admin
      | none => .error engineNoRows }

/-! ## Collaborators and libraries used in the examples -/

/-- A library in which every password verifies, hashing returns a fixed hash, and
minting returns a fixed token. -/
def libAccept : Lib :=
  { CompareHashAndPassword := fun _ _ => none
    GenerateFromPassword := fun _ _ => ([36, 50, 97], none)
    NewToken := fun _ _ _ => ("token", none) }

/-- A library in which verification fails with `err` for every hash and password. -/
def libReject (err : GoError) : Lib :=
  { libAccept with CompareHashAndPassword := fun _ _ => some err }

/-- A user provider answering every call with the same pairs. -/
def constUserProvider (user : User × Option GoError) (isAdmin : Bool × Option GoError) :
    UserProvider :=
  { User := fun _ => user, IsAdmin := fun _ => isAdmin }

/-- A service whose three collaborators answer every call with the same pairs. -/
def constAuth (save : Int × Option GoError) (user : User × Option GoError)
    (isAdmin : Bool × Option GoError) (app : App × Option GoError) : Auth :=
  auth.New { SaveUser := fun _ _ => save } (constUserProvider user isAdmin)
    { App := fun _ => app } 3600

/-- A registered user. -/
def alice : User := { ID := 1, Email := "alice@example.com", PassHash := [36, 50, 97] }

/-- A registered app. -/
def app1 : App := { ID := 1, Name := "test", Secret := "test-secret" }

/-- A users table with one ordinary user and one administrator. -/
def usersEx : List UserRow :=
  [ { id := 1, email := "alice@example.com", password_hash := [36, 50, 97], is_admin := false },
    { id := 4, email := "dave@example.com", password_hash := [36, 50, 98], is_admin := true } ]

/-- An apps table with one app. -/
def appsEx : List AppRow :=
  [ { id := 1, name := "test", secret := "test-secret" } ]

/-- A database whose every prepare answers `prep` and whose insert answers `exec`;
its queries find no row. -/
def scriptedDB (prep : Option EngineError) (exec : Except EngineError sql.Result) : sql.DB :=
  { PrepareContext := fun _ => prep
    Prepare := fun _ => prep
    ExecContext := fun _ _ _ => exec
    ScanUser := fun _ _ => .error engineNoRows
    ScanApp := fun _ _ => .error engineNoRows
    ScanIsAdmin := fun _ _ => .error engineNoRows }

/-- The engine error of a locked database file (`sqlite3.ErrBusy`). -/
def engineBusy : EngineError := ⟨.sqlite3Error 5 5, rfl⟩

/-! ## Facts about error chains -/

@[simp]
theorem errors_Is_Errorf (msg : String) (err : GoError) (target : Sentinel) :
    errors.Is (fmt.Errorf msg err) target = errors.Is err target := rfl

@[simp]
theorem errors_Is_sentinel (s target : Sentinel) :
    errors.Is (.sentinel s) target = decide (s = target) := rfl

/-- An engine error is of no kind declared by the repository. -/
theorem library_not_Is (e : GoError) (target : Sentinel) (he : e.library = true)
    (ht : target.ofRepository = true) : errors.Is e target = false := by
  induction e with
  | sentinel s =>
    simp only [GoError.library, Bool.not_eq_true'] at he
    simp only [errors_Is_sentinel, decide_eq_false_iff_not]
    intro h
    rw [h, ht] at he
    exact Bool.noConfusion he
  | sqlite3Error code ext => rfl
  | other msg => rfl
  | wrap msg inner ih => exact ih he

/-! ## The store -/

/-- Claim C4: on a users table with no row for the user id, `Storage.IsAdmin` returns
`false` and an error that wraps `storage.ErrorAppNotFound` under the text
"user not found"; `errors.Is(err, storage.ErrorUserNotFound)` is false for it. -/
theorem storage_IsAdmin_no_row_is_AppNotFound :
    (sqlite.New (tableDB [] appsEx)).IsAdmin 1 =
        (false, some (fmt.Errorf "storage.sqlite.IsAdmin: user not found: "
          (.sentinel storage.ErrorAppNotFound))) ∧
      errors.Is (fmt.Errorf "storage.sqlite.IsAdmin: user not found: "
          (.sentinel storage.ErrorAppNotFound)) storage.ErrorUserNotFound = false ∧
      errors.Is (fmt.Errorf "storage.sqlite.IsAdmin: user not found: "
          (.sentinel storage.ErrorAppNotFound)) storage.ErrorAppNotFound = true := by
  refine ⟨rfl, rfl, rfl⟩

/-- What `Storage.IsAdmin` returns on a healthy database, by the first row with the id. -/
theorem tableDB_IsAdmin (users : List UserRow) (apps : List AppRow) (userID : Int) :
    (sqlite.New (tableDB users apps)).IsAdmin userID =
      match users.find? (fun r => r.id == userID) with
      | some r => (r.is_admin, none)
      | none => (false, some (fmt.Errorf "storage.sqlite.IsAdmin: user not found: "
          (.sentinel storage.ErrorAppNotFound))) := by
  unfold Storage.IsAdmin sqlite.New tableDB
  cases h : users.find? (fun r => r.id == userID) with
  | none => simp [h, engineNoRows, sql.ErrNoRows]
  | some r => simp [h]

/-- With a primary key on `id`, the first row with an id is the row with that id. -/
theorem find_row_of_mem (users : List UserRow) (hpk : (users.map (fun r => r.id)).Nodup)
    (r : UserRow) (hr : r ∈ users) :
    users.find? (fun x => x.id == r.id) = some r := by
  induction users with
  | nil => cases hr
  | cons x xs ih =>
    rw [List.map_cons, List.nodup_cons] at hpk
    rcases List.mem_cons.mp hr with h | h
    · subst h
      simp
    · have hne : x.id ≠ r.id := by
        intro heq
        exact hpk.1 (heq ▸ List.mem_map_of_mem (fun r => r.id) h)
      rw [List.find?_cons_of_neg _ (by simpa using hne)]
      exact ih hpk.2 h

/-- No row carries the id exactly when the one-row query finds nothing. -/
theorem find_row_none (users : List UserRow) (userID : Int)
    (h : ∀ r ∈ users, r.id ≠ userID) :
    users.find? (fun x => x.id == userID) = none := by
  rw [List.find?_eq_none]
  intro r hr
  simpa using h r hr

/-! ## The service on the production wiring -/

/-- Claim C5: with the wiring of `app.New` over a healthy database whose `users` table
has a primary key on `id`, `Auth.IsAdmin` fails with `InvalidAppID` (and returns
`false`) for a user id that no row carries, and returns the `is_admin` flag of the row
with no error for a user id that a row carries. -/
theorem isAdmin_end_to_end (users : List UserRow) (apps : List AppRow) (tokenTTL : Int)
    (userID : Int) (hpk : (users.map (fun r => r.id)).Nodup) :
    ((∀ r ∈ users, r.id ≠ userID) →
      ((app.New (tableDB users apps) tokenTTL).IsAdmin userID).val = false ∧
      ∃ e, ((app.New (tableDB users apps) tokenTTL).IsAdmin userID).err = some e ∧
        errors.Is e auth.ErrInvalidAppID = true) ∧
    (∀ r ∈ users, r.id = userID →
      ((app.New (tableDB users apps) tokenTTL).IsAdmin userID).val = r.is_admin ∧
      ((app.New (tableDB users apps) tokenTTL).IsAdmin userID).err = none) := by
  have hstore := tableDB_IsAdmin users apps userID
  constructor
  · intro hno
    rw [find_row_none users userID hno] at hstore
    simp only [Auth.IsAdmin, app.New, auth.New, Storage.asUserProvider, hstore]
    simp [storage.ErrorAppNotFound, auth.ErrInvalidAppID]
  · intro r hr hid
    subst hid
    rw [find_row_of_mem users hpk r hr] at hstore
    simp only [Auth.IsAdmin, app.New, auth.New, Storage.asUserProvider, hstore]
    simp

/-- Claim C5, on the example tables: the administrator with id 4 is reported as an
administrator, the ordinary user with id 1 is not, and the id `4 + 10^9`, which no row
carries, fails with `InvalidAppID`. -/
theorem isAdmin_end_to_end_witness :
    (usersEx.map (fun r => r.id)).Nodup ∧
    (((app.New (tableDB usersEx appsEx) 3600).IsAdmin 4).val = true ∧
      ((app.New (tableDB usersEx appsEx) 3600).IsAdmin 4).err = none) ∧
    (((app.New (tableDB usersEx appsEx) 3600).IsAdmin 1).val = false ∧
      ((app.New (tableDB usersEx appsEx) 3600).IsAdmin 1).err = none) ∧
    (((app.New (tableDB usersEx appsEx) 3600).IsAdmin 1000000004).val = false ∧
      ∃ e, ((app.New (tableDB usersEx appsEx) 3600).IsAdmin 1000000004).err = some e ∧
        errors.Is e auth.ErrInvalidAppID = true) :=
  ⟨by decide,
    (isAdmin_end_to_end usersEx appsEx 3600 4 (by decide)).2
      { id := 4, email := "dave@example.com", password_hash := [36, 50, 98], is_admin := true }
      (by decide) rfl,
    (isAdmin_end_to_end usersEx appsEx 3600 1 (by decide)).2
      { id := 1, email := "alice@example.com", password_hash := [36, 50, 97], is_admin := false }
      (by decide) rfl,
    (isAdmin_end_to_end usersEx appsEx 3600 1000000004 (by decide)).1 (by decide)⟩

/-- Claim C1: on the production wiring, a registered user with a verified password who
logs in with an app id that no row of `apps` carries gets the store error back, wrapped
twice: `errors.Is(err, storage.ErrorAppNotFound)` holds for it and
`errors.Is(err, auth.ErrInvalidAppID)` does not. -/
theorem login_unknown_app_returns_store_error :
    ((app.New (tableDB usersEx appsEx) 3600).Login libAccept
        "alice@example.com" "hunter2" 9999).val = "" ∧
    ((app.New (tableDB usersEx appsEx) 3600).Login libAccept
        "alice@example.com" "hunter2" 9999).err =
      some (fmt.Errorf "auth.Login: " (fmt.Errorf "storage.sqlite.App: "
        (.sentinel storage.ErrorAppNotFound))) ∧
    errors.Is (fmt.Errorf "auth.Login: " (fmt.Errorf "storage.sqlite.App: "
        (.sentinel storage.ErrorAppNotFound))) auth.ErrInvalidAppID = false ∧
    errors.Is (fmt.Errorf "auth.Login: " (fmt.Errorf "storage.sqlite.App: "
        (.sentinel storage.ErrorAppNotFound))) storage.ErrorAppNotFound = true := by
  refine ⟨by decide, by decide, rfl, rfl⟩

/-- Claim C3: when `UserProvider.IsAdmin` fails with `storage.ErrorUserNotFound`
(wrapped by the store), `Auth.IsAdmin` returns `false` and that error wrapped once
more: `errors.Is(err, storage.ErrorUserNotFound)` holds for it and
`errors.Is(err, auth.ErrInvalidAppID)` does not. -/
theorem isAdmin_service_passes_UserNotFound :
    ((constAuth (0, none) (alice, none)
        (false, some (fmt.Errorf "storage.sqlite.IsAdmin: user not found: "
          (.sentinel storage.ErrorUserNotFound)))
        (app1, none)).IsAdmin 7).val = false ∧
    ((constAuth (0, none) (alice, none)
        (false, some (fmt.Errorf "storage.sqlite.IsAdmin: user not found: "
          (.sentinel storage.ErrorUserNotFound)))
        (app1, none)).IsAdmin 7).err =
      some (fmt.Errorf "auth.IsAdmin: " (fmt.Errorf "storage.sqlite.IsAdmin: user not found: "
        (.sentinel storage.ErrorUserNotFound))) ∧
    errors.Is (fmt.Errorf "auth.IsAdmin: "
        (fmt.Errorf "storage.sqlite.IsAdmin: user not found: "
          (.sentinel storage.ErrorUserNotFound))) auth.ErrInvalidAppID = false ∧
    errors.Is (fmt.Errorf "auth.IsAdmin: "
        (fmt.Errorf "storage.sqlite.IsAdmin: user not found: "
          (.sentinel storage.ErrorUserNotFound))) storage.ErrorUserNotFound = true := by
  refine ⟨rfl, rfl, rfl, rfl⟩

/-! ## The paths of `Login` -/

/-- The run of `Login` when the user lookup fails with `UserNotFound`. -/
theorem Login_user_not_found (a : Auth) (lib : Lib) (email password : String) (appID : Int)
    (u : User) (e : GoError) (h : a.UserProvider.User email = (u, some e))
    (hnf : errors.Is e storage.ErrorUserNotFound = true) :
    a.Login lib email password appID =
      ⟨"", some (fmt.Errorf "auth.Login: " (.sentinel auth.ErrInvalidCredentials)),
        [Event.log .info "Logging in user", Event.callUser email,
          Event.log .warn "user not found"]⟩ := by
  simp [Auth.Login, h, hnf]

/-- The run of `Login` when the user lookup fails with another error. -/
theorem Login_user_error (a : Auth) (lib : Lib) (email password : String) (appID : Int)
    (u : User) (e : GoError) (h : a.UserProvider.User email = (u, some e))
    (hnf : errors.Is e storage.ErrorUserNotFound = false) :
    a.Login lib email password appID =
      ⟨"", some (fmt.Errorf "auth.Login: " e),
        [Event.log .info "Logging in user", Event.callUser email,
          Event.log .error "failed to get user"]⟩ := by
  simp [Auth.Login, h, hnf]

/-- The run of `Login` when the user is found and password verification fails. -/
theorem Login_bad_password (a : Auth) (lib : Lib) (email password : String) (appID : Int)
    (u : User) (h : a.UserProvider.User email = (u, none))
    (e : GoError) (hbad : lib.CompareHashAndPassword u.PassHash password = some e) :
    a.Login lib email password appID =
      ⟨"", some (fmt.Errorf "auth.Login: " (.sentinel auth.ErrInvalidCredentials)),
        [Event.log .info "Logging in user", Event.callUser email,
          Event.log .info "invalid credentials"]⟩ := by
  simp [Auth.Login, h, hbad]

/-- The run of `Login` when the password verifies and the app lookup fails. -/
theorem Login_app_error (a : Auth) (lib : Lib) (email password : String) (appID : Int)
    (u : User) (h : a.UserProvider.User email = (u, none))
    (hok : lib.CompareHashAndPassword u.PassHash password = none)
    (ap : App) (e : GoError) (happ : a.AppProvider.App appID = (ap, some e)) :
    a.Login lib email password appID =
      ⟨"", some (fmt.Errorf "auth.Login: " e),
        [Event.log .info "Logging in user", Event.callUser email, Event.callApp appID]⟩ := by
  simp [Auth.Login, h, hok, happ]

/-- The result of `Login` when the password verifies and the app is found: the outcome
of minting. -/
theorem Login_app_found (a : Auth) (lib : Lib) (email password : String) (appID : Int)
    (u : User) (h : a.UserProvider.User email = (u, none))
    (hok : lib.CompareHashAndPassword u.PassHash password = none)
    (ap : App) (happ : a.AppProvider.App appID = (ap, none)) :
    (a.Login lib email password appID).err =
        (lib.NewToken u ap a.tokenTTL).2.map (fmt.Errorf "auth.Login: ") ∧
      (a.Login lib email password appID).val =
        if (lib.NewToken u ap a.tokenTTL).2 = none then (lib.NewToken u ap a.tokenTTL).1
        else "" := by
  simp only [Auth.Login, h, hok, happ]
  rcases hm : lib.NewToken u ap a.tokenTTL with ⟨tok, _ | e⟩ <;> simp

/-! ## The paths of `RegisterNewUser` and `IsAdmin` -/

/-- The run of `RegisterNewUser` when hashing fails. -/
theorem Register_hash_error (a : Auth) (lib : Lib) (email password : String)
    (passHash : Bytes) (e : GoError)
    (hhash : lib.GenerateFromPassword password bcrypt.DefaultCost = (passHash, some e)) :
    a.RegisterNewUser lib email password =
      ⟨0, some (fmt.Errorf "auth.RegisterNewUser: " e),
        [Event.log .info "Registering new user",
          Event.log .error "failed to generate password hash"]⟩ := by
  simp [Auth.RegisterNewUser, hhash]

/-- The run of `RegisterNewUser` when the user is saved. -/
theorem Register_saved (a : Auth) (lib : Lib) (email password : String) (passHash : Bytes)
    (hhash : lib.GenerateFromPassword password bcrypt.DefaultCost = (passHash, none))
    (uid : Int) (hsave : a.UserSaver.SaveUser email passHash = (uid, none)) :
    a.RegisterNewUser lib email password =
      ⟨uid, none,
        [Event.log .info "Registering new user", Event.callSaveUser email passHash,
          Event.log .info "User registered successfully"]⟩ := by
  simp [Auth.RegisterNewUser, hhash, hsave]

/-- The run of `RegisterNewUser` when saving fails with `UserExists`. -/
theorem Register_user_exists (a : Auth) (lib : Lib) (email password : String)
    (passHash : Bytes)
    (hhash : lib.GenerateFromPassword password bcrypt.DefaultCost = (passHash, none))
    (uid : Int) (e : GoError) (hsave : a.UserSaver.SaveUser email passHash = (uid, some e))
    (hex : errors.Is e storage.ErrorUserExists = true) :
    a.RegisterNewUser lib email password =
      ⟨0, some (fmt.Errorf "auth.RegisterNewUser: " (.sentinel auth.ErrUserExists)),
        [Event.log .info "Registering new user", Event.callSaveUser email passHash,
          Event.log .warn "user already exists"]⟩ := by
  simp [Auth.RegisterNewUser, hhash, hsave, hex]

/-- The run of `RegisterNewUser` when saving fails with another error. -/
theorem Register_save_error (a : Auth) (lib : Lib) (email password : String)
    (passHash : Bytes)
    (hhash : lib.GenerateFromPassword password bcrypt.DefaultCost = (passHash, none))
    (uid : Int) (e : GoError) (hsave : a.UserSaver.SaveUser email passHash = (uid, some e))
    (hex : errors.Is e storage.ErrorUserExists = false) :
    a.RegisterNewUser lib email password =
      ⟨0, some (fmt.Errorf "auth.RegisterNewUser: " e),
        [Event.log .info "Registering new user", Event.callSaveUser email passHash,
          Event.log .error "failed to save user"]⟩ := by
  simp [Auth.RegisterNewUser, hhash, hsave, hex]

/-- The run of `IsAdmin` when the provider fails with `AppNotFound`. -/
theorem IsAdmin_app_not_found (a : Auth) (userID : Int) (b : Bool) (e : GoError)
    (h : a.UserProvider.IsAdmin userID = (b, some e))
    (hnf : errors.Is e storage.ErrorAppNotFound = true) :
    a.IsAdmin userID =
      ⟨false, some (fmt.Errorf "auth.IsAdmin: " (.sentinel auth.ErrInvalidAppID)),
        [Event.log .info "Checking if user is admin", Event.callIsAdmin userID,
          Event.log .warn "user not found"]⟩ := by
  simp [Auth.IsAdmin, h, hnf]

/-- The run of `IsAdmin` when the provider fails with another error. -/
theorem IsAdmin_error (a : Auth) (userID : Int) (b : Bool) (e : GoError)
    (h : a.UserProvider.IsAdmin userID = (b, some e))
    (hnf : errors.Is e storage.ErrorAppNotFound = false) :
    a.IsAdmin userID =
      ⟨false, some (fmt.Errorf "auth.IsAdmin: " e),
        [Event.log .info "Checking if user is admin", Event.callIsAdmin userID,
          Event.log .error "failed to check if user is admin"]⟩ := by
  simp [Auth.IsAdmin, h, hnf]

/-- The run of `IsAdmin` when the provider answers. -/
theorem IsAdmin_answer (a : Auth) (userID : Int) (b : Bool)
    (h : a.UserProvider.IsAdmin userID = (b, none)) :
    a.IsAdmin userID =
      ⟨b, none,
        [Event.log .info "Checking if user is admin", Event.callIsAdmin userID,
          Event.log .info "User admin status checked"]⟩ := by
  simp [Auth.IsAdmin, h]

/-! ## Claims about `Login` -/

/-- Claim C2: a run of `Login` whose user lookup fails with `UserNotFound` and a run
whose user is found but whose password does not verify return the same result: the
empty token and one and the same error, which wraps `auth.ErrInvalidCredentials` and
is not of kind `storage.ErrorUserNotFound`. -/
theorem login_missing_user_same_as_wrong_password
    (a₁ a₂ : Auth) (lib₁ lib₂ : Lib) (email password : String) (appID : Int)
    (u₁ : User) (e₁ : GoError) (h₁ : a₁.UserProvider.User email = (u₁, some e₁))
    (hnf : errors.Is e₁ storage.ErrorUserNotFound = true)
    (u₂ : User) (h₂ : a₂.UserProvider.User email = (u₂, none))
    (e₂ : GoError) (hbad : lib₂.CompareHashAndPassword u₂.PassHash password = some e₂) :
    (a₁.Login lib₁ email password appID).val = "" ∧
    (a₂.Login lib₂ email password appID).val = "" ∧
    (a₁.Login lib₁ email password appID).err = (a₂.Login lib₂ email password appID).err ∧
    (a₁.Login lib₁ email password appID).err =
      some (fmt.Errorf "auth.Login: " (.sentinel auth.ErrInvalidCredentials)) ∧
    errors.Is (fmt.Errorf "auth.Login: " (.sentinel auth.ErrInvalidCredentials))
      auth.ErrInvalidCredentials = true ∧
    errors.Is (fmt.Errorf "auth.Login: " (.sentinel auth.ErrInvalidCredentials))
      storage.ErrorUserNotFound = false := by
  rw [Login_user_not_found a₁ lib₁ email password appID u₁ e₁ h₁ hnf,
    Login_bad_password a₂ lib₂ email password appID u₂ h₂ e₂ hbad]
  exact ⟨rfl, rfl, rfl, rfl, rfl, rfl⟩

/-- Claim C2, on an example: the store reports `UserNotFound` for a ghost user in one
run, and bcrypt reports a mismatch for a registered user in the other. -/
theorem login_missing_user_same_as_wrong_password_witness :
    ((constAuth (0, none)
        (User.zero, some (fmt.Errorf "storage.sqlite.User: user not found: "
          (.sentinel storage.ErrorUserNotFound)))
        (false, none) (app1, none)).Login libAccept "ghost@example.com" "any" 1).err =
      ((constAuth (0, none) (alice, none) (false, none) (app1, none)).Login
        (libReject (.sentinel bcrypt.ErrMismatchedHashAndPassword))
        "ghost@example.com" "any" 1).err :=
  (login_missing_user_same_as_wrong_password
    (constAuth (0, none)
      (User.zero, some (fmt.Errorf "storage.sqlite.User: user not found: "
        (.sentinel storage.ErrorUserNotFound)))
      (false, none) (app1, none))
    (constAuth (0, none) (alice, none) (false, none) (app1, none))
    libAccept (libReject (.sentinel bcrypt.ErrMismatchedHashAndPassword))
    "ghost@example.com" "any" 1
    User.zero (fmt.Errorf "storage.sqlite.User: user not found: "
      (.sentinel storage.ErrorUserNotFound)) rfl rfl
    alice rfl (.sentinel bcrypt.ErrMismatchedHashAndPassword) rfl).2.2.1

/-- Claim C8, as stated, fails: a registered user whose stored hash is too short makes
`bcrypt.CompareHashAndPassword` fail with `ErrHashTooShort`, which is not a mismatch,
and `Login` still fails with `InvalidCredentials`. -/
theorem login_malformed_hash_is_InvalidCredentials :
    (libReject (.sentinel bcrypt.ErrHashTooShort)).CompareHashAndPassword alice.PassHash
        "hunter2" = some (.sentinel bcrypt.ErrHashTooShort) ∧
    errors.Is (.sentinel bcrypt.ErrHashTooShort) bcrypt.ErrMismatchedHashAndPassword = false ∧
    ∃ e, ((constAuth (0, none) (alice, none) (false, none) (app1, none)).Login
        (libReject (.sentinel bcrypt.ErrHashTooShort)) "alice@example.com" "hunter2" 1).err
          = some e ∧
      errors.Is e auth.ErrInvalidCredentials = true :=
  ⟨rfl, rfl, _, rfl, rfl⟩

/-- Claim C8, amended: for every user whose lookup succeeds, whenever
`bcrypt.CompareHashAndPassword` fails, with a mismatch or with any other error,
`Login` returns the empty token and an error of kind `InvalidCredentials`. -/
theorem login_any_verification_failure_is_InvalidCredentials
    (a : Auth) (lib : Lib) (email password : String) (appID : Int)
    (u : User) (h : a.UserProvider.User email = (u, none))
    (e : GoError) (hbad : lib.CompareHashAndPassword u.PassHash password = some e) :
    (a.Login lib email password appID).val = "" ∧
    ∃ e', (a.Login lib email password appID).err = some e' ∧
      errors.Is e' auth.ErrInvalidCredentials = true := by
  rw [Login_bad_password a lib email password appID u h e hbad]
  exact ⟨rfl, _, rfl, rfl⟩

/-- Claim C8, amended, on two examples: a mismatch and a malformed hash end alike. -/
theorem login_any_verification_failure_is_InvalidCredentials_witness :
    (∃ e', ((constAuth (0, none) (alice, none) (false, none) (app1, none)).Login
        (libReject (.sentinel bcrypt.ErrMismatchedHashAndPassword))
        "alice@example.com" "wrong" 1).err = some e' ∧
      errors.Is e' auth.ErrInvalidCredentials = true) ∧
    (∃ e', ((constAuth (0, none) (alice, none) (false, none) (app1, none)).Login
        (libReject (.other "crypto/bcrypt: bcrypt hashes must start with $"))
        "alice@example.com" "hunter2" 1).err = some e' ∧
      errors.Is e' auth.ErrInvalidCredentials = true) :=
  ⟨(login_any_verification_failure_is_InvalidCredentials
      (constAuth (0, none) (alice, none) (false, none) (app1, none))
      (libReject (.sentinel bcrypt.ErrMismatchedHashAndPassword))
      "alice@example.com" "wrong" 1 alice rfl
      (.sentinel bcrypt.ErrMismatchedHashAndPassword) rfl).2,
    (login_any_verification_failure_is_InvalidCredentials
      (constAuth (0, none) (alice, none) (false, none) (app1, none))
      (libReject (.other "crypto/bcrypt: bcrypt hashes must start with $"))
      "alice@example.com" "hunter2" 1 alice rfl
      (.other "crypto/bcrypt: bcrypt hashes must start with $") rfl).2⟩

/-- Claim C10: when the user lookup fails or the password does not verify, the run of
`Login` makes no call to `AppProvider.App`, and its whole outcome is the same for every
app id and every `AppProvider`; an unknown user or a wrong password then yields
`InvalidCredentials` and not `InvalidAppID`, whatever the app id. -/
theorem login_app_lookup_only_after_password
    (a : Auth) (lib : Lib) (email password : String) (appID : Int)
    (h : (∃ u e, a.UserProvider.User email = (u, some e)) ∨
      (∃ u e, a.UserProvider.User email = (u, none) ∧
        lib.CompareHashAndPassword u.PassHash password = some e)) :
    (∀ id, Event.callApp id ∉ (a.Login lib email password appID).trace) ∧
    (∀ (p : AppProvider) (id : Int),
      ({ a with AppProvider := p }).Login lib email password id =
        a.Login lib email password appID) ∧
    (((∃ u e, a.UserProvider.User email = (u, some e) ∧
          errors.Is e storage.ErrorUserNotFound = true) ∨
        (∃ u e, a.UserProvider.User email = (u, none) ∧
          lib.CompareHashAndPassword u.PassHash password = some e)) →
      ∃ e', (a.Login lib email password appID).err = some e' ∧
        errors.Is e' auth.ErrInvalidCredentials = true ∧
        errors.Is e' auth.ErrInvalidAppID = false) := by
  refine ⟨?_, ?_, ?_⟩
  · intro id
    rcases h with ⟨u, e, hu⟩ | ⟨u, e, hu, hbad⟩
    · cases hnf : errors.Is e storage.ErrorUserNotFound
      · rw [Login_user_error a lib email password appID u e hu hnf]
        simp
      · rw [Login_user_not_found a lib email password appID u e hu hnf]
        simp
    · rw [Login_bad_password a lib email password appID u hu e hbad]
      simp
  · intro p id
    rcases h with ⟨u, e, hu⟩ | ⟨u, e, hu, hbad⟩
    · cases hnf : errors.Is e storage.ErrorUserNotFound
      · rw [Login_user_error a lib email password appID u e hu hnf,
          Login_user_error { a with AppProvider := p } lib email password id u e hu hnf]
      · rw [Login_user_not_found a lib email password appID u e hu hnf,
          Login_user_not_found { a with AppProvider := p } lib email password id u e hu hnf]
    · rw [Login_bad_password a lib email password appID u hu e hbad,
        Login_bad_password { a with AppProvider := p } lib email password id u hu e hbad]
  · intro h'
    rcases h' with ⟨u, e, hu, hnf⟩ | ⟨u, e, hu, hbad⟩
    · rw [Login_user_not_found a lib email password appID u e hu hnf]
      exact ⟨_, rfl, rfl, rfl⟩
    · rw [Login_bad_password a lib email password appID u hu e hbad]
      exact ⟨_, rfl, rfl, rfl⟩

/-- Claim C10, on an example: a ghost user with the unknown app id 9999, on the
production wiring, gets `InvalidCredentials`, and the same outcome as with app id 1
and with an app provider that always fails. -/
theorem login_app_lookup_only_after_password_witness :
    (∃ e', ((app.New (tableDB usersEx appsEx) 3600).Login libAccept
        "ghost@example.com" "any" 9999).err = some e' ∧
      errors.Is e' auth.ErrInvalidCredentials = true ∧
      errors.Is e' auth.ErrInvalidAppID = false) ∧
    ({ app.New (tableDB usersEx appsEx) 3600 with
        AppProvider := { App := fun _ => (App.zero, some (.other "down")) } }).Login libAccept
        "ghost@example.com" "any" 1 =
      (app.New (tableDB usersEx appsEx) 3600).Login libAccept "ghost@example.com" "any" 9999 :=
  ⟨(login_app_lookup_only_after_password (app.New (tableDB usersEx appsEx) 3600) libAccept
      "ghost@example.com" "any" 9999
      (Or.inl ⟨User.zero, fmt.Errorf "storage.sqlite.User: user not found: "
        (.sentinel storage.ErrorUserNotFound), by decide⟩)).2.2
      (Or.inl ⟨User.zero, fmt.Errorf "storage.sqlite.User: user not found: "
        (.sentinel storage.ErrorUserNotFound), by decide, rfl⟩),
    (login_app_lookup_only_after_password (app.New (tableDB usersEx appsEx) 3600) libAccept
      "ghost@example.com" "any" 9999
      (Or.inl ⟨User.zero, fmt.Errorf "storage.sqlite.User: user not found: "
        (.sentinel storage.ErrorUserNotFound), by decide⟩)).2.1
      { App := fun _ => (App.zero, some (.other "down")) } 1⟩

/-! ## Claims about `RegisterNewUser` -/

/-- Claim C7: when hashing the password succeeds, `RegisterNewUser` returns the uid of
`SaveUser` with no error when `SaveUser` succeeds, and returns uid 0 with an error of
kind `auth.ErrUserExists` when `SaveUser` fails with an error of kind
`storage.ErrorUserExists`. -/
theorem register_success_and_UserExists
    (a : Auth) (lib : Lib) (email password : String) (passHash : Bytes)
    (hhash : lib.GenerateFromPassword password bcrypt.DefaultCost = (passHash, none)) :
    (∀ uid, a.UserSaver.SaveUser email passHash = (uid, none) →
      (a.RegisterNewUser lib email password).val = uid ∧
      (a.RegisterNewUser lib email password).err = none) ∧
    (∀ uid e, a.UserSaver.SaveUser email passHash = (uid, some e) →
      errors.Is e storage.ErrorUserExists = true →
      (a.RegisterNewUser lib email password).val = 0 ∧
      ∃ e', (a.RegisterNewUser lib email password).err = some e' ∧
        errors.Is e' auth.ErrUserExists = true) := by
  constructor
  · intro uid hsave
    rw [Register_saved a lib email password passHash hhash uid hsave]
    exact ⟨rfl, rfl⟩
  · intro uid e hsave hex
    rw [Register_user_exists a lib email password passHash hhash uid e hsave hex]
    exact ⟨rfl, _, rfl, rfl⟩

/-- Claim C7, on the production wiring: registering a fresh email returns the next row
id, and registering a taken email fails with `auth.ErrUserExists` and uid 0. -/
theorem register_success_and_UserExists_witness :
    (((app.New (tableDB usersEx appsEx) 3600).RegisterNewUser libAccept
        "bob@example.com" "s3cret").val = 5 ∧
      ((app.New (tableDB usersEx appsEx) 3600).RegisterNewUser libAccept
        "bob@example.com" "s3cret").err = none) ∧
    (((app.New (tableDB usersEx appsEx) 3600).RegisterNewUser libAccept
        "alice@example.com" "hunter2").val = 0 ∧
      ∃ e', ((app.New (tableDB usersEx appsEx) 3600).RegisterNewUser libAccept
          "alice@example.com" "hunter2").err = some e' ∧
        errors.Is e' auth.ErrUserExists = true) :=
  ⟨(register_success_and_UserExists (app.New (tableDB usersEx appsEx) 3600) libAccept
      "bob@example.com" "s3cret" [36, 50, 97] rfl).1 5 (by decide),
    (register_success_and_UserExists (app.New (tableDB usersEx appsEx) 3600) libAccept
      "alice@example.com" "hunter2" [36, 50, 97] rfl).2 0
      (fmt.Errorf "storage.sqlite.SaveUser: user already exists: "
        (.sentinel storage.ErrorUserExists)) (by decide) rfl⟩

/-! ## Store-layer kinds at the service boundary -/

/-- Claim C6, as stated, fails: a `UserSaver` whose `SaveUser` fails with an error of
kind `storage.ErrorUserNotFound` makes `RegisterNewUser` return an error of that same
kind, since an error the service does not recognise is wrapped with `%w`. -/
theorem register_passes_store_kind_through :
    ∃ e, ((constAuth (0, some (fmt.Errorf "saver: " (.sentinel storage.ErrorUserNotFound)))
        (alice, none) (false, none) (app1, none)).RegisterNewUser libAccept
        "bob@example.com" "s3cret").err = some e ∧
      errors.Is e storage.ErrorUserNotFound = true :=
  ⟨_, rfl, rfl⟩

/-- Claim C6, amended: the service makes no store-layer kind of its own.  For `k` one
of `storage.ErrorUserNotFound` and `storage.ErrorAppNotFound`: a `UserNotFound` failure
of `UserProvider.User` in `Login` is translated to `InvalidCredentials`, which is not of
kind `k`; and the error that `Login`, `RegisterNewUser` or `IsAdmin` returns is of kind
`k` only if the error of a collaborator or library call of that run, which the
operation wrapped with `%w`, already was of kind `k`. -/
theorem store_kinds_translated_or_passed_through
    (a : Auth) (lib : Lib) (email password : String) (appID userID : Int)
    (k : Sentinel) (hk : k = storage.ErrorUserNotFound ∨ k = storage.ErrorAppNotFound) :
    (∀ u e, a.UserProvider.User email = (u, some e) →
      errors.Is e storage.ErrorUserNotFound = true →
      ∃ e', (a.Login lib email password appID).err = some e' ∧
        errors.Is e' auth.ErrInvalidCredentials = true ∧ errors.Is e' k = false) ∧
    (∀ e', (a.Login lib email password appID).err = some e' → errors.Is e' k = true →
      (∃ u e, a.UserProvider.User email = (u, some e) ∧ errors.Is e k = true) ∨
      (∃ u ap e, a.UserProvider.User email = (u, none) ∧
        a.AppProvider.App appID = (ap, some e) ∧ errors.Is e k = true) ∨
      (∃ u ap tok e, a.UserProvider.User email = (u, none) ∧
        a.AppProvider.App appID = (ap, none) ∧
        lib.NewToken u ap a.tokenTTL = (tok, some e) ∧ errors.Is e k = true)) ∧
    (∀ e', (a.RegisterNewUser lib email password).err = some e' → errors.Is e' k = true →
      (∃ passHash e,
        lib.GenerateFromPassword password bcrypt.DefaultCost = (passHash, some e) ∧
        errors.Is e k = true) ∨
      (∃ passHash uid e,
        lib.GenerateFromPassword password bcrypt.DefaultCost = (passHash, none) ∧
        a.UserSaver.SaveUser email passHash = (uid, some e) ∧ errors.Is e k = true)) ∧
    (∀ e', (a.IsAdmin userID).err = some e' → errors.Is e' k = true →
      ∃ b e, a.UserProvider.IsAdmin userID = (b, some e) ∧ errors.Is e k = true) := by
  have hcred : errors.Is (fmt.Errorf "auth.Login: " (.sentinel auth.ErrInvalidCredentials)) k
      = false := by
    rcases hk with rfl | rfl <;> rfl
  have hexists : errors.Is (fmt.Errorf "auth.RegisterNewUser: "
      (.sentinel auth.ErrUserExists)) k = false := by
    rcases hk with rfl | rfl <;> rfl
  have happid : errors.Is (fmt.Errorf "auth.IsAdmin: " (.sentinel auth.ErrInvalidAppID)) k
      = false := by
    rcases hk with rfl | rfl <;> rfl
  refine ⟨?_, ?_, ?_, ?_⟩
  · intro u e hu hnf
    rw [Login_user_not_found a lib email password appID u e hu hnf]
    exact ⟨_, rfl, rfl, hcred⟩
  · intro e' herr hkind
    rcases hu : a.UserProvider.User email with ⟨u, _ | e⟩
    · rcases hc : lib.CompareHashAndPassword u.PassHash password with _ | ec
      · rcases happ : a.AppProvider.App appID with ⟨ap, _ | e⟩
        · rcases htok : lib.NewToken u ap a.tokenTTL with ⟨tok, _ | e⟩
          · rw [(Login_app_found a lib email password appID u hu hc ap happ).1, htok] at herr
            cases herr
          · rw [(Login_app_found a lib email password appID u hu hc ap happ).1, htok] at herr
            cases herr
            exact Or.inr (Or.inr ⟨u, ap, tok, e, rfl, rfl, htok, hkind⟩)
        · rw [Login_app_error a lib email password appID u hu hc ap e happ] at herr
          cases herr
          exact Or.inr (Or.inl ⟨u, ap, e, rfl, rfl, hkind⟩)
      · rw [Login_bad_password a lib email password appID u hu ec hc] at herr
        cases herr
        rw [hcred] at hkind
        cases hkind
    · cases hnf : errors.Is e storage.ErrorUserNotFound
      · rw [Login_user_error a lib email password appID u e hu hnf] at herr
        cases herr
        exact Or.inl ⟨u, e, rfl, hkind⟩
      · rw [Login_user_not_found a lib email password appID u e hu hnf] at herr
        cases herr
        rw [hcred] at hkind
        cases hkind
  · intro e' herr hkind
    rcases hhash : lib.GenerateFromPassword password bcrypt.DefaultCost with ⟨passHash, _ | e⟩
    · rcases hsave : a.UserSaver.SaveUser email passHash with ⟨uid, _ | e⟩
      · rw [Register_saved a lib email password passHash hhash uid hsave] at herr
        cases herr
      · cases hex : errors.Is e storage.ErrorUserExists
        · rw [Register_save_error a lib email password passHash hhash uid e hsave hex] at herr
          cases herr
          exact Or.inr ⟨passHash, uid, e, rfl, hsave, hkind⟩
        · rw [Register_user_exists a lib email password passHash hhash uid e hsave hex] at herr
          cases herr
          rw [hexists] at hkind
          cases hkind
    · rw [Register_hash_error a lib email password passHash e hhash] at herr
      cases herr
      exact Or.inl ⟨passHash, e, rfl, hkind⟩
  · intro e' herr hkind
    rcases hb : a.UserProvider.IsAdmin userID with ⟨b, _ | e⟩
    · rw [IsAdmin_answer a userID b hb] at herr
      cases herr
    · cases hnf : errors.Is e storage.ErrorAppNotFound
      · rw [IsAdmin_error a userID b e hb hnf] at herr
        cases herr
        exact ⟨b, e, rfl, hkind⟩
      · rw [IsAdmin_app_not_found a userID b e hb hnf] at herr
        cases herr
        rw [happid] at hkind
        cases hkind

/-- Claim C6, amended, on examples: a ghost login on the production wiring returns
`InvalidCredentials` and no store-layer kind; and the store kind in the error of a
`Login` whose user provider fails with `AppNotFound`, and of a `RegisterNewUser` whose
saver fails with `UserNotFound`, is found again in that collaborator's own error. -/
theorem store_kinds_translated_or_passed_through_witness :
    (∃ e', ((app.New (tableDB usersEx appsEx) 3600).Login libAccept
        "ghost@example.com" "any" 1).err = some e' ∧
      errors.Is e' auth.ErrInvalidCredentials = true ∧
      errors.Is e' storage.ErrorUserNotFound = false) ∧
    ((∃ u e, (constAuth (0, none)
          (User.zero, some (fmt.Errorf "provider: " (.sentinel storage.ErrorAppNotFound)))
          (false, none) (app1, none)).UserProvider.User "bob@example.com" = (u, some e) ∧
        errors.Is e storage.ErrorAppNotFound = true) ∨
      (∃ u ap e, (constAuth (0, none)
          (User.zero, some (fmt.Errorf "provider: " (.sentinel storage.ErrorAppNotFound)))
          (false, none) (app1, none)).UserProvider.User "bob@example.com" = (u, none) ∧
        (constAuth (0, none)
          (User.zero, some (fmt.Errorf "provider: " (.sentinel storage.ErrorAppNotFound)))
          (false, none) (app1, none)).AppProvider.App 1 = (ap, some e) ∧
        errors.Is e storage.ErrorAppNotFound = true) ∨
      (∃ u ap tok e, (constAuth (0, none)
          (User.zero, some (fmt.Errorf "provider: " (.sentinel storage.ErrorAppNotFound)))
          (false, none) (app1, none)).UserProvider.User "bob@example.com" = (u, none) ∧
        (constAuth (0, none)
          (User.zero, some (fmt.Errorf "provider: " (.sentinel storage.ErrorAppNotFound)))
          (false, none) (app1, none)).AppProvider.App 1 = (ap, none) ∧
        libAccept.NewToken u ap
          (constAuth (0, none)
            (User.zero, some (fmt.Errorf "provider: " (.sentinel storage.ErrorAppNotFound)))
            (false, none) (app1, none)).tokenTTL = (tok, some e) ∧
        errors.Is e storage.ErrorAppNotFound = true)) ∧
    ((∃ passHash e, libAccept.GenerateFromPassword "s3cret" bcrypt.DefaultCost
          = (passHash, some e) ∧ errors.Is e storage.ErrorUserNotFound = true) ∨
      (∃ passHash uid e, libAccept.GenerateFromPassword "s3cret" bcrypt.DefaultCost
          = (passHash, none) ∧
        (constAuth (0, some (fmt.Errorf "saver: " (.sentinel storage.ErrorUserNotFound)))
          (alice, none) (false, none) (app1, none)).UserSaver.SaveUser "bob@example.com"
            passHash = (uid, some e) ∧
        errors.Is e storage.ErrorUserNotFound = true)) :=
  ⟨(store_kinds_translated_or_passed_through (app.New (tableDB usersEx appsEx) 3600)
      libAccept "ghost@example.com" "any" 1 1 storage.ErrorUserNotFound (Or.inl rfl)).1
      User.zero (fmt.Errorf "storage.sqlite.User: user not found: "
        (.sentinel storage.ErrorUserNotFound)) (by decide) rfl,
    (store_kinds_translated_or_passed_through
      (constAuth (0, none)
        (User.zero, some (fmt.Errorf "provider: " (.sentinel storage.ErrorAppNotFound)))
        (false, none) (app1, none))
      libAccept "bob@example.com" "s3cret" 1 1 storage.ErrorAppNotFound (Or.inr rfl)).2.1
      (fmt.Errorf "auth.Login: "
        (fmt.Errorf "provider: " (.sentinel storage.ErrorAppNotFound))) rfl rfl,
    (store_kinds_translated_or_passed_through
      (constAuth (0, some (fmt.Errorf "saver: " (.sentinel storage.ErrorUserNotFound)))
        (alice, none) (false, none) (app1, none))
      libAccept "bob@example.com" "s3cret" 1 1 storage.ErrorUserNotFound (Or.inl rfl)).2.2.1
      (fmt.Errorf "auth.RegisterNewUser: "
        (fmt.Errorf "saver: " (.sentinel storage.ErrorUserNotFound))) rfl rfl⟩

/-! ## Claims about `Storage.SaveUser` -/

/-- Claim C9: `Storage.SaveUser` fails with an error of kind `storage.ErrorUserExists`
exactly when the prepare succeeds and executing the insert fails with an engine error
in which `errors.As` finds a `sqlite3.Error` whose extended code is
`sqlite3.ErrConstraintUnique`.  A prepare error, any other execute error and a
`LastInsertId` error each give uid 0 and an error that is not of that kind; and when
all three steps succeed the result is the engine's last-insert id with no error. -/
theorem saveUser_error_mapping (s : Storage) (email : String) (passHash : Bytes) :
    ((∃ e, (s.SaveUser email passHash).2 = some e ∧
        errors.Is e storage.ErrorUserExists = true) ↔
      (s.db.PrepareContext "INSERT INTO users (email, password_hash) VALUES (?, ?)" = none ∧
        ∃ e code,
          s.db.ExecContext "INSERT INTO users (email, password_hash) VALUES (?, ?)"
            email passHash = .error e ∧
          errors.As e.val = some (code, sqlite3.ErrConstraintUnique))) ∧
    (∀ e, s.db.PrepareContext "INSERT INTO users (email, password_hash) VALUES (?, ?)"
        = some e →
      ∃ e', s.SaveUser email passHash = (0, some e') ∧
        errors.Is e' storage.ErrorUserExists = false) ∧
    (∀ e, s.db.PrepareContext "INSERT INTO users (email, password_hash) VALUES (?, ?)"
        = none →
      s.db.ExecContext "INSERT INTO users (email, password_hash) VALUES (?, ?)"
        email passHash = .error e →
      (∀ code, errors.As e.val ≠ some (code, sqlite3.ErrConstraintUnique)) →
      ∃ e', s.SaveUser email passHash = (0, some e') ∧
        errors.Is e' storage.ErrorUserExists = false) ∧
    (∀ res id e, s.db.PrepareContext "INSERT INTO users (email, password_hash) VALUES (?, ?)"
        = none →
      s.db.ExecContext "INSERT INTO users (email, password_hash) VALUES (?, ?)"
        email passHash = .ok res →
      res.LastInsertId = (id, some e) →
      ∃ e', s.SaveUser email passHash = (0, some e') ∧
        errors.Is e' storage.ErrorUserExists = false) ∧
    (∀ res id, s.db.PrepareContext "INSERT INTO users (email, password_hash) VALUES (?, ?)"
        = none →
      s.db.ExecContext "INSERT INTO users (email, password_hash) VALUES (?, ?)"
        email passHash = .ok res →
      res.LastInsertId = (id, none) →
      s.SaveUser email passHash = (id, none)) := by
  have hlib : ∀ e : EngineError, errors.Is e.val storage.ErrorUserExists = false :=
    fun e => library_not_Is e.val storage.ErrorUserExists e.property rfl
  have hprep : ∀ e,
      s.db.PrepareContext "INSERT INTO users (email, password_hash) VALUES (?, ?)" = some e →
      s.SaveUser email passHash =
        (0, some (fmt.Errorf "storage.sqlite.SaveUser: prepare statement: " e.val)) := by
    intro e h
    simp [Storage.SaveUser, h]
  have hexec : ∀ e,
      s.db.PrepareContext "INSERT INTO users (email, password_hash) VALUES (?, ?)" = none →
      s.db.ExecContext "INSERT INTO users (email, password_hash) VALUES (?, ?)"
        email passHash = .error e →
      (∀ code, errors.As e.val ≠ some (code, sqlite3.ErrConstraintUnique)) →
      s.SaveUser email passHash =
        (0, some (fmt.Errorf "storage.sqlite.SaveUser: execute statement: " e.val)) := by
    intro e h he hno
    simp only [Storage.SaveUser, h, he]
    rcases has : errors.As e.val with _ | ⟨code, ext⟩
    · simp
    · have : ext ≠ sqlite3.ErrConstraintUnique := by
        intro heq
        exact hno code (by rw [has, heq])
      simp [this]
  have hunique : ∀ e code,
      s.db.PrepareContext "INSERT INTO users (email, password_hash) VALUES (?, ?)" = none →
      s.db.ExecContext "INSERT INTO users (email, password_hash) VALUES (?, ?)"
        email passHash = .error e →
      errors.As e.val = some (code, sqlite3.ErrConstraintUnique) →
      s.SaveUser email passHash =
        (0, some (fmt.Errorf "storage.sqlite.SaveUser: user already exists: "
          (.sentinel storage.ErrorUserExists))) := by
    intro e code h he has
    simp [Storage.SaveUser, h, he, has]
  have hid : ∀ res id e,
      s.db.PrepareContext "INSERT INTO users (email, password_hash) VALUES (?, ?)" = none →
      s.db.ExecContext "INSERT INTO users (email, password_hash) VALUES (?, ?)"
        email passHash = .ok res →
      res.LastInsertId = (id, some e) →
      s.SaveUser email passHash =
        (0, some (fmt.Errorf "storage.sqlite.SaveUser: get last insert id: " e.val)) := by
    intro res id e h he hl
    simp [Storage.SaveUser, h, he, hl]
  have hok : ∀ res id,
      s.db.PrepareContext "INSERT INTO users (email, password_hash) VALUES (?, ?)" = none →
      s.db.ExecContext "INSERT INTO users (email, password_hash) VALUES (?, ?)"
        email passHash = .ok res →
      res.LastInsertId = (id, none) →
      s.SaveUser email passHash = (id, none) := by
    intro res id h he hl
    simp [Storage.SaveUser, h, he, hl]
  refine ⟨⟨?_, ?_⟩, ?_, ?_, ?_, hok⟩
  · rintro ⟨e', herr, hkind⟩
    rcases hp : s.db.PrepareContext "INSERT INTO users (email, password_hash) VALUES (?, ?)"
      with _ | ep
    · refine ⟨rfl, ?_⟩
      rcases hx : s.db.ExecContext "INSERT INTO users (email, password_hash) VALUES (?, ?)"
        email passHash with ex | res
      · by_cases hu : ∃ code, errors.As ex.val = some (code, sqlite3.ErrConstraintUnique)
        · obtain ⟨code, hcode⟩ := hu
          exact ⟨ex, code, rfl, hcode⟩
        · rw [hexec ex hp hx (fun code hc => hu ⟨code, hc⟩)] at herr
          cases herr
          rw [errors_Is_Errorf, hlib ex] at hkind
          cases hkind
      · rcases hl : res.LastInsertId with ⟨id, _ | el⟩
        · rw [hok res id hp hx hl] at herr
          cases herr
        · rw [hid res id el hp hx hl] at herr
          cases herr
          rw [errors_Is_Errorf, hlib el] at hkind
          cases hkind
    · rw [hprep ep hp] at herr
      cases herr
      rw [errors_Is_Errorf, hlib ep] at hkind
      cases hkind
  · rintro ⟨hp, e, code, hx, hcode⟩
    rw [hunique e code hp hx hcode]
    exact ⟨_, rfl, rfl⟩
  · intro e hp
    rw [hprep e hp]
    exact ⟨_, rfl, by rw [errors_Is_Errorf, hlib e]⟩
  · intro e hp hx hno
    rw [hexec e hp hx hno]
    exact ⟨_, rfl, by rw [errors_Is_Errorf, hlib e]⟩
  · intro res id e hp hx hl
    rw [hid res id e hp hx hl]
    exact ⟨_, rfl, by rw [errors_Is_Errorf, hlib e]⟩

/-- Claim C9, on examples: a taken email gives `UserExists`; a failing prepare, a
locked database on execute and a failing `LastInsertId` each give uid 0 and an error
that is not `UserExists`; a fresh email gives the next row id. -/
theorem saveUser_error_mapping_witness :
    (∃ e, ((sqlite.New (tableDB usersEx appsEx)).SaveUser "alice@example.com" [36]).2
        = some e ∧ errors.Is e storage.ErrorUserExists = true) ∧
    (∃ e', (sqlite.New (scriptedDB (some engineBusy) (.error engineBusy))).SaveUser
        "bob@example.com" [36] = (0, some e') ∧
      errors.Is e' storage.ErrorUserExists = false) ∧
    (∃ e', (sqlite.New (scriptedDB none (.error engineBusy))).SaveUser
        "bob@example.com" [36] = (0, some e') ∧
      errors.Is e' storage.ErrorUserExists = false) ∧
    (∃ e', (sqlite.New (scriptedDB none
        (.ok { LastInsertId := (0, some engineBusy) }))).SaveUser
        "bob@example.com" [36] = (0, some e') ∧
      errors.Is e' storage.ErrorUserExists = false) ∧
    (sqlite.New (tableDB usersEx appsEx)).SaveUser "bob@example.com" [36] = (5, none) :=
  ⟨(saveUser_error_mapping (sqlite.New (tableDB usersEx appsEx))
      "alice@example.com" [36]).1.mpr ⟨rfl, engineUniqueViolation, 19, rfl, rfl⟩,
    (saveUser_error_mapping (sqlite.New (scriptedDB (some engineBusy) (.error engineBusy)))
      "bob@example.com" [36]).2.1 engineBusy rfl,
    (saveUser_error_mapping (sqlite.New (scriptedDB none (.error engineBusy)))
      "bob@example.com" [36]).2.2.1 engineBusy rfl rfl
      (fun code h => by
        simp [engineBusy, errors.As, sqlite3.ErrConstraintUnique] at h),
    (saveUser_error_mapping (sqlite.New (scriptedDB none
        (.ok { LastInsertId := (0, some engineBusy) })))
      "bob@example.com" [36]).2.2.2.1 { LastInsertId := (0, some engineBusy) } 0 engineBusy
      rfl rfl rfl,
    (saveUser_error_mapping (sqlite.New (tableDB usersEx appsEx))
      "bob@example.com" [36]).2.2.2.2 { LastInsertId := (5, none) } 5 rfl rfl rfl⟩

end SSO
